import Mathlib

/-
Verification of the use-window-orientation hook (src/index.ts).

The hook validates an options argument, seeds a state value with a default
orientation, and installs a debounced resize handler that recomputes the
orientation from the window inner width and height. We embed the JavaScript
runtime values the validation code inspects (typeof, property destructuring,
template-literal stringification), the validation itself, the recompute
body, the activation and cleanup lifecycle, and a debounce state machine.
-/

namespace UseWindowOrientation

/-- JavaScript runtime values, as far as the hook inspects them: the options
argument can be undefined, null, a primitive, an object (an association list
of fields) or a function. Numbers are modelled as integers; no floating
point behaviour is relevant to the hook. -/
inductive JSValue where
  | undefined : JSValue
  | null : JSValue
  | bool : Bool → JSValue
  | num : Int → JSValue
  | str : String → JSValue
  | obj : List (String × JSValue) → JSValue
  | func : JSValue

/-- The JavaScript typeof operator on the modelled values. Note typeof null
is "object" and typeof of a function is "function". -/
def jsTypeof : JSValue → String
  | .undefined => "undefined"
  | .null => "object"
  | .bool _ => "boolean"
  | .num _ => "number"
  | .str _ => "string"
  | .obj _ => "object"
  | .func => "function"

/-- JavaScript ToString as used by a template literal interpolation. -/
def jsToString : JSValue → String
  | .undefined => "undefined"
  | .null => "null"
  | .bool b => if b then "true" else "false"
  | .num n => toString n
  | .str s => s
  | .obj _ => "[object Object]"
  | .func => "function"

/-- Property read on an object field list: a missing key reads as undefined. -/
def getField (fields : List (String × JSValue)) (k : String) : JSValue :=
  match fields.find? (fun p => p.1 == k) with
  | some p => p.2
  | none => .undefined

/-- The Orientation type of src/index.ts line 4: "portrait" | "landscape". -/
inductive Orientation where
  | portrait : Orientation
  | landscape : Orientation
deriving DecidableEq, Repr

/-- The string value of an Orientation, as it appears in the source. -/
def orientationString : Orientation → String
  | .portrait => "portrait"
  | .landscape => "landscape"

/-- The OrientationResults record of src/index.ts lines 10-14. -/
structure OrientationResults where
  orientation : Orientation
  portrait : Bool
  landscape : Bool
deriving DecidableEq, Repr

/-- The hook return value of src/index.ts lines 62-66: the booleans are
derived from the orientation by strict equality on each read. -/
def mkResults (o : Orientation) : OrientationResults :=
  { orientation := o
    portrait := o == .portrait
    landscape := o == .landscape }

/-- The message of the TypeError thrown at src/index.ts line 26. -/
def optionsErrorMessage : String :=
  "The options argument must be formatted as an object."

/-- Error classes the embedding distinguishes. -/
inductive ErrClass where
  | typeError : ErrClass
  | referenceError : ErrClass
deriving DecidableEq, Repr

/-- A thrown JavaScript error: its class and its message. -/
structure JSError where
  cls : ErrClass
  message : String
deriving DecidableEq, Repr

/-- The ES2015 parameter default of src/index.ts line 23: options = \x7b\x7d
replaces an undefined argument by the empty object, and only an undefined
argument. -/
def resolveOptionsArg (arg : JSValue) : JSValue :=
  match arg with
  | .undefined => .obj []
  | a => a

/-- The destructuring of src/index.ts line 28: reading the property
defaultOrientation from the options value, with the destructuring default
"portrait" applied when the property value is undefined. Destructuring null
or undefined itself throws a generic TypeError. Primitive values box and
read the property as undefined. -/
def readDefaultOrientation (options : JSValue) : Except JSError JSValue :=
  match options with
  | .null =>
      .error { cls := .typeError
               message := "Cannot destructure property defaultOrientation of null" }
  | .undefined =>
      .error { cls := .typeError
               message := "Cannot destructure property defaultOrientation of undefined" }
  | .obj fields =>
      .ok (match getField fields "defaultOrientation" with
           | .undefined => .str "portrait"
           | v => v)
  | _ => .ok (.str "portrait")

/-- The message built by the template literal of src/index.ts lines 33-35:
the offending value, wrapped in double quotes exactly when it is
string-typed, followed by the fixed suffix. -/
def invalidDefaultOrientationMessage (v : JSValue) : String :=
  let q := if jsTypeof v = "string" then "\"" else ""
  q ++ jsToString v ++ q ++
    " is not a valid defaultOrientation. Use \"portrait\" or \"landscape\"."

/-- The enumeration check of src/index.ts lines 30-37: the destructured
value must be exactly the string "portrait" or the string "landscape",
otherwise a TypeError carrying the offending value is thrown. -/
def parseDefaultOrientation (v : JSValue) : Except JSError Orientation :=
  match v with
  | .str "portrait" => .ok .portrait
  | .str "landscape" => .ok .landscape
  | _ => .error { cls := .typeError, message := invalidDefaultOrientationMessage v }

/-- The synchronous validation prefix of the hook, src/index.ts lines 23-37:
parameter default, the typeof object check, the destructuring with default,
and the enumeration check. Returns the validated default orientation. -/
def validateOptions (arg : JSValue) : Except JSError Orientation :=
  let options := resolveOptionsArg arg
  if jsTypeof options ≠ "object" then
    .error { cls := .typeError, message := optionsErrorMessage }
  else
    match readDefaultOrientation options with
    | .error e => .error e
    | .ok v => parseDefaultOrientation v

/-- The hook value observed on the first render, before the mount effect has
run: the useState seed of src/index.ts line 39 is the validated default
orientation, and the return value of lines 62-66 derives the booleans from
it. This is the value seen when no window measurement is available and no
resize has been processed. -/
def useWindowOrientationFirstRender (arg : JSValue) : Except JSError OrientationResults :=
  match validateOptions arg with
  | .error e => .error e
  | .ok d => .ok (mkResults d)

/-- The host window, as read by the resize handler: innerWidth and
innerHeight in pixels. -/
structure Window where
  innerWidth : Int
  innerHeight : Int
deriving DecidableEq, Repr

/-- The body of the debounced handleResize callback, src/index.ts lines
43-49: compare window.innerWidth with window.innerHeight and set the
orientation state to portrait when width is at most height, landscape
otherwise. -/
def handleResizeBody (w : Window) : Orientation :=
  if w.innerWidth ≤ w.innerHeight then .portrait else .landscape

/-- The state owned by one activation of the hook: the current orientation
value (the useState cell of line 39), whether the resize listener of line
54 is currently registered, and the debounce timer state of the handleResize
closure (the expiry time of a pending trailing timer, if any, and whether a
call arrived while it was pending). -/
structure HookState where
  orientation : Orientation
  listenerRegistered : Bool
  pendingExpiry : Option Nat
  sawCallWhilePending : Bool
deriving DecidableEq, Repr

/-- Modelled from the spec: the debounce utility (lodash.debounce, an
external dependency whose source is not in this repository) wraps the
handler with a 400 time-unit window, leading and trailing edges. Per the
spec state machine: a call in the idle state fires immediately and starts a
pending timer; a call while pending is recorded without firing. The body
reads the window, which in an environment without one raises a
ReferenceError. -/
def debouncedHandleResize (env : Option Window) (t : Nat) (st : HookState) :
    Except JSError HookState :=
  match st.pendingExpiry with
  | none =>
      match env with
      | none => .error { cls := .referenceError, message := "window is not defined" }
      | some w =>
          .ok { st with
                orientation := handleResizeBody w
                pendingExpiry := some (t + 400)
                sawCallWhilePending := false }
  | some e =>
      if e ≤ t then
        match env with
        | none => .error { cls := .referenceError, message := "window is not defined" }
        | some w =>
            .ok { st with
                  orientation := handleResizeBody w
                  pendingExpiry := some (t + 400)
                  sawCallWhilePending := false }
      else
        .ok { st with sawCallWhilePending := true }

/-- Modelled from the spec: expiry of the pending debounce timer. If a call
arrived while pending, the trailing edge invokes the body once more; either
way the machine returns to idle. A cancelled (hence absent) timer fires
nothing. -/
def timerFire (env : Option Window) (st : HookState) : Except JSError HookState :=
  match st.pendingExpiry with
  | none => .ok st
  | some _ =>
      if st.sawCallWhilePending then
        match env with
        | none => .error { cls := .referenceError, message := "window is not defined" }
        | some w =>
            .ok { st with
                  orientation := handleResizeBody w
                  pendingExpiry := none
                  sawCallWhilePending := false }
      else
        .ok { st with pendingExpiry := none, sawCallWhilePending := false }

/-- Modelled from the spec: delivery of a window resize notification. The
debounced handler runs only while the listener registered at src/index.ts
line 54 is still in place; after removeEventListener the event dispatch
reaches no handler of this activation. -/
def dispatchResize (env : Option Window) (t : Nat) (st : HookState) :
    Except JSError HookState :=
  if st.listenerRegistered then debouncedHandleResize env t st else .ok st

/-- The cleanup function returned by the effect, src/index.ts lines 56-59:
removeEventListener deregisters the resize listener, and handleResize.cancel
discards any pending trailing invocation and resets the debounce state. The
orientation value is left as it is. -/
def cleanup (st : HookState) : HookState :=
  { st with
    listenerRegistered := false
    pendingExpiry := none
    sawCallWhilePending := false }

/-- Observable side-effect counters of the host environment: how many resize
listeners are registered and how many debounce timers are pending. Used to
state that a validation error leaves the environment untouched. -/
structure World where
  resizeListeners : Nat
  pendingTimers : Nat
deriving DecidableEq, Repr

/-- The full activation of the hook at time 0: the validation prefix of
lines 25-37, the useState seed of line 39, then the mount effect of lines
41-60: the immediate handleResize() call of line 53 (a leading-edge
invocation, which reads the window and starts the trailing timer) followed
by addEventListener on line 54. A validation error is thrown before any
state or subscription exists, so the world is returned unchanged. In an
environment without a window the debounce wrapper starts its timer and the
body then throws a ReferenceError on the unguarded window read, before
addEventListener runs. -/
def mountRun (arg : JSValue) (env : Option Window) (world : World) :
    World × Except JSError HookState :=
  match validateOptions arg with
  | .error e => (world, .error e)
  | .ok d =>
      let st0 : HookState :=
        { orientation := d
          listenerRegistered := false
          pendingExpiry := none
          sawCallWhilePending := false }
      match debouncedHandleResize env 0 st0 with
      | .error e =>
          ({ world with pendingTimers := world.pendingTimers + 1 }, .error e)
      | .ok st1 =>
          ({ world with
             resizeListeners := world.resizeListeners + 1
             pendingTimers := world.pendingTimers + 1 },
           .ok { st1 with listenerRegistered := true })

/-- Modelled from the spec: one step of the debounce machine on a call at
time t. In the idle state the call fires immediately (leading edge) and a
timer is started; if the timer has already expired when the call arrives,
the trailing edge (if armed) fires first at the expiry time, then the call
is a fresh leading edge; while pending, the call is only recorded. Returns
the new state and the times at which the wrapped function fired. -/
def debStep (wait : Nat) (s : Option (Nat × Bool)) (t : Nat) :
    Option (Nat × Bool) × List Nat :=
  match s with
  | none => (some (t + wait, false), [t])
  | some (e, saw) =>
      if e ≤ t then
        (some (t + wait, false), (if saw then [e] else []) ++ [t])
      else
        (some (e, true), [])

/-- Modelled from the spec: run the debounce machine over a chronological
list of call times. -/
def debRun (wait : Nat) (s : Option (Nat × Bool)) :
    List Nat → Option (Nat × Bool) × List Nat
  | [] => (s, [])
  | t :: ts =>
      let p := debStep wait s t
      let q := debRun wait p.1 ts
      (q.1, p.2 ++ q.2)

/-- Modelled from the spec: the final timer expiry after the last call. The
trailing edge fires at the expiry time when a call arrived while pending. -/
def debFlush : Option (Nat × Bool) → List Nat
  | none => []
  | some (e, saw) => if saw then [e] else []

/-- Modelled from the spec: the complete list of times at which the wrapped
function is invoked, given the call times of the notifications. -/
def debounceFires (wait : Nat) (calls : List Nat) : List Nat :=
  let p := debRun wait none calls
  p.2 ++ debFlush p.1

/-! Theorems. -/

/-- Helper: reducing validateOptions on an object argument. -/
lemma validateOptions_obj (fields : List (String × JSValue)) :
    validateOptions (.obj fields) =
      parseDefaultOrientation
        (match getField fields "defaultOrientation" with
         | .undefined => .str "portrait"
         | v => v) := rfl

/-- Helper: reducing validateOptions on an object argument to the
destructuring step followed by the enumeration check. -/
lemma validateOptions_obj_read (fields : List (String × JSValue)) :
    validateOptions (.obj fields) =
      match readDefaultOrientation (.obj fields) with
      | .error e => .error e
      | .ok v => parseDefaultOrientation v := rfl

/-- Helper: destructuring a defined property value heading the field list
leaves it in place (the destructuring default only replaces undefined). -/
lemma readDefaultOrientation_head (v : JSValue) (rest : List (String × JSValue))
    (h1 : v ≠ .undefined) :
    readDefaultOrientation (.obj (("defaultOrientation", v) :: rest)) = .ok v := by
  cases v
  case undefined => exact absurd rfl h1
  all_goals rfl

/-- Helper: the enumeration check rejects every value that is not one of the
two orientation strings, with the templated message. -/
lemma parseDefaultOrientation_invalid (v : JSValue)
    (h2 : v ≠ .str "portrait") (h3 : v ≠ .str "landscape") :
    parseDefaultOrientation v =
      .error { cls := .typeError, message := invalidDefaultOrientationMessage v } := by
  unfold parseDefaultOrientation
  split
  · simp_all
  · simp_all
  · rfl

/-- Claim C1: the recompute body maps window dimensions with width at most
height (ties included) to portrait, and width strictly greater than height
to landscape. -/
theorem handleResize_portrait_iff_width_le_height (w : Window) :
    (w.innerWidth ≤ w.innerHeight → handleResizeBody w = .portrait) ∧
    (w.innerHeight < w.innerWidth → handleResizeBody w = .landscape) := by
  constructor
  · intro h
    unfold handleResizeBody
    rw [if_pos h]
  · intro h
    unfold handleResizeBody
    rw [if_neg (not_le.mpr h)]

/-- Witness for C1 at concrete window sizes 500x1000 and 1000x500. -/
theorem handleResize_portrait_iff_width_le_height_witness :
    handleResizeBody { innerWidth := 500, innerHeight := 1000 } = .portrait ∧
    handleResizeBody { innerWidth := 1000, innerHeight := 500 } = .landscape :=
  ⟨(handleResize_portrait_iff_width_le_height _).1 (by norm_num),
   (handleResize_portrait_iff_width_le_height _).2 (by norm_num)⟩

/-- Claim C2: in every result the hook returns, the portrait flag equals the
test orientation = portrait, the landscape flag equals the test
orientation = landscape, and exactly one of the two flags is true. -/
theorem results_flags_consistent (o : Orientation) :
    (mkResults o).orientation = o ∧
    (mkResults o).portrait = (o == .portrait) ∧
    (mkResults o).landscape = (o == .landscape) ∧
    (mkResults o).portrait ≠ (mkResults o).landscape := by
  cases o <;> refine ⟨rfl, rfl, rfl, by decide⟩

/-- Counterexample to C3 as stated: the options object whose
defaultOrientation field is present with the value undefined. The value is
neither the string "portrait" nor the string "landscape", yet the hook does
not throw: the destructuring default of src/index.ts line 28 replaces an
undefined property value by "portrait". -/
theorem defaultOrientation_undefined_counterexample :
    getField [("defaultOrientation", .undefined)] "defaultOrientation" = .undefined ∧
    useWindowOrientationFirstRender (.obj [("defaultOrientation", .undefined)]) =
      .ok (mkResults .portrait) :=
  ⟨rfl, rfl⟩

/-- Claim C3 (amended): for every options object whose defaultOrientation
field is present with a value other than undefined and neither the string
"portrait" nor the string "landscape", the hook throws a TypeError whose
message is the offending value — double-quoted exactly when string-typed —
followed by the fixed suffix. -/
theorem invalid_defaultOrientation_throws (v : JSValue)
    (rest : List (String × JSValue))
    (h1 : v ≠ .undefined) (h2 : v ≠ .str "portrait") (h3 : v ≠ .str "landscape") :
    validateOptions (.obj (("defaultOrientation", v) :: rest)) =
      .error { cls := .typeError, message := invalidDefaultOrientationMessage v } := by
  rw [validateOptions_obj_read, readDefaultOrientation_head v rest h1]
  exact parseDefaultOrientation_invalid v h2 h3

/-- Witness for C3 (amended) at the options object with defaultOrientation
equal to the number 42, matching the unquoted message of the spec example. -/
theorem invalid_defaultOrientation_throws_witness :
    validateOptions (.obj [("defaultOrientation", .num 42)]) =
      .error { cls := .typeError,
               message := invalidDefaultOrientationMessage (.num 42) } :=
  invalid_defaultOrientation_throws (.num 42) []
    (fun h => JSValue.noConfusion h)
    (fun h => JSValue.noConfusion h)
    (fun h => JSValue.noConfusion h)

/-- Counterexample to C4 as stated: the argument undefined. Its typeof is
"undefined", not "object", so it is not an object-shaped value, yet the hook
does not throw: the parameter default of src/index.ts line 23 replaces an
undefined argument by the empty object before the typeof check runs. -/
theorem options_undefined_counterexample :
    jsTypeof .undefined ≠ "object" ∧
    useWindowOrientationFirstRender .undefined = .ok (mkResults .portrait) :=
  ⟨by decide, rfl⟩

/-- Claim C4 (amended): for every options argument other than undefined
whose typeof is not "object", activation throws a TypeError with exactly
the message "The options argument must be formatted as an object." -/
theorem non_object_options_throws (arg : JSValue) (env : Option Window)
    (world : World) (h1 : arg ≠ .undefined) (h2 : jsTypeof arg ≠ "object") :
    (mountRun arg env world).2 =
      .error { cls := .typeError, message := optionsErrorMessage } := by
  have hv : validateOptions arg =
      .error { cls := .typeError, message := optionsErrorMessage } := by
    cases arg with
    | undefined => exact absurd rfl h1
    | null => exact absurd rfl h2
    | obj fields => exact absurd rfl h2
    | bool b => rfl
    | num n => rfl
    | str s => rfl
    | func => rfl
  unfold mountRun
  rw [hv]

/-- Witness for C4 (amended) at the string argument "foo". -/
theorem non_object_options_throws_witness :
    (mountRun (.str "foo") none { resizeListeners := 0, pendingTimers := 0 }).2 =
      .error { cls := .typeError, message := optionsErrorMessage } :=
  non_object_options_throws (.str "foo") none _
    (fun h => JSValue.noConfusion h) (by decide)

/-- Claim C5: the code violates this claim. Activating with valid options in
an environment without a window, the immediate handleResize() call of the
mount effect reads the window unguarded and throws a ReferenceError, instead
of leaving the value at defaultOrientation without throwing as the claim
(and the defaultOrientation doc comment of src/index.ts line 19) requires. -/
theorem no_window_mount_throws :
    (mountRun (.obj []) none { resizeListeners := 0, pendingTimers := 0 }).2 =
      .error { cls := .referenceError, message := "window is not defined" } := rfl

/-- Claim C6: with no window measurement and no resize processed, the value
the hook returns carries exactly the validated defaultOrientation; an
object-shaped options argument without the field — including the empty
object supplied by the parameter default — yields portrait. -/
theorem initial_orientation_default :
    (∀ d : Orientation,
      useWindowOrientationFirstRender
          (.obj [("defaultOrientation", .str (orientationString d))]) =
        .ok (mkResults d)) ∧
    (∀ fields : List (String × JSValue),
      fields.find? (fun p => p.1 == "defaultOrientation") = none →
      useWindowOrientationFirstRender (.obj fields) = .ok (mkResults .portrait)) ∧
    useWindowOrientationFirstRender .undefined = .ok (mkResults .portrait) := by
  refine ⟨fun d => ?_, fun fields h => ?_, rfl⟩
  · cases d <;> rfl
  · have hg : getField fields "defaultOrientation" = .undefined := by
      unfold getField
      rw [h]
    unfold useWindowOrientationFirstRender
    rw [validateOptions_obj, hg]
    rfl

/-- Witness for C6 at the empty object: the field is absent and the hook
returns portrait. -/
theorem initial_orientation_default_witness :
    useWindowOrientationFirstRender (.obj []) = .ok (mkResults .portrait) :=
  initial_orientation_default.2.1 [] rfl

/-- Helper: while the debounce timer is pending, calls strictly before the
expiry fire nothing; they only mark that a call arrived. -/
lemma debRun_pending (wait : Nat) (e : Nat) (saw : Bool) (ts : List Nat)
    (h : ∀ t ∈ ts, t < e) :
    debRun wait (some (e, saw)) ts = (some (e, saw || !ts.isEmpty), []) := by
  induction ts generalizing saw with
  | nil => simp [debRun]
  | cons t ts ih =>
      have ht : ¬ e ≤ t := Nat.not_le.mpr (h t (by simp))
      have hrest : ∀ x ∈ ts, x < e := fun x hx => h x (by simp [hx])
      simp [debRun, debStep, ht, ih true hrest]

/-- Claim C7: a burst of notifications all strictly within one 400-unit
window of the first fires the wrapped recompute at the first notification
(leading edge) and at most once more at the expiry (trailing edge): never
more than two invocations. -/
theorem debounce_burst_at_most_two (t0 : Nat) (rest : List Nat)
    (h : ∀ t ∈ rest, t < t0 + 400) :
    debounceFires 400 (t0 :: rest) =
      t0 :: (if rest.isEmpty then [] else [t0 + 400]) ∧
    (debounceFires 400 (t0 :: rest)).length ≤ 2 := by
  have key : debounceFires 400 (t0 :: rest) =
      t0 :: (if rest.isEmpty then [] else [t0 + 400]) := by
    unfold debounceFires
    simp only [debRun, debStep]
    rw [debRun_pending 400 (t0 + 400) false rest h]
    cases rest <;> simp [debFlush]
  refine ⟨key, ?_⟩
  rw [key]
  cases rest <;> simp

/-- Witness for C7: ten rapid notifications at times 0 through 9 produce
exactly two invocations, at times 0 and 400. -/
theorem debounce_burst_at_most_two_witness :
    debounceFires 400 [0, 1, 2, 3, 4, 5, 6, 7, 8, 9] = [0, 400] ∧
    (debounceFires 400 [0, 1, 2, 3, 4, 5, 6, 7, 8, 9]).length ≤ 2 := by
  have h := debounce_burst_at_most_two 0 [1, 2, 3, 4, 5, 6, 7, 8, 9] (by decide)
  exact ⟨h.1.trans (by decide), h.2⟩

/-- Claim C8: after the cleanup of src/index.ts lines 56-59, the listener is
deregistered and the pending debounced invocation is cancelled, so a later
resize notification or timer expiry raises no error and leaves the state —
in particular the orientation value — unchanged. -/
theorem cleanup_blocks_further_updates (st : HookState) (env : Option Window)
    (t : Nat) :
    (cleanup st).listenerRegistered = false ∧
    (cleanup st).pendingExpiry = none ∧
    (cleanup st).orientation = st.orientation ∧
    dispatchResize env t (cleanup st) = .ok (cleanup st) ∧
    timerFire env (cleanup st) = .ok (cleanup st) := by
  refine ⟨rfl, rfl, rfl, ?_, rfl⟩
  unfold dispatchResize cleanup
  simp

/-- Claim C9: a validation error is thrown before any subscription or timer
exists: activation returns the error and the observable world — listener
and timer counts — is exactly the world before activation. -/
theorem validation_error_no_partial_activation (arg : JSValue)
    (env : Option Window) (world : World) (e : JSError)
    (h : validateOptions arg = .error e) :
    mountRun arg env world = (world, .error e) := by
  unfold mountRun
  rw [h]

/-- Witness for C9 at the non-object argument "foo" in an empty world. -/
theorem validation_error_no_partial_activation_witness :
    mountRun (.str "foo") none { resizeListeners := 0, pendingTimers := 0 } =
      ({ resizeListeners := 0, pendingTimers := 0 },
       .error { cls := .typeError, message := optionsErrorMessage }) :=
  validation_error_no_partial_activation (.str "foo") none _ _ rfl

/-- Claim C10: the argument null passes the typeof check (typeof null is
"object"), so the hook does not throw the configured options-type message;
the destructuring of line 28 then throws a generic TypeError whose message
differs from that configured message. -/
theorem null_options_generic_type_error :
    jsTypeof .null = "object" ∧
    validateOptions .null =
      .error { cls := .typeError,
               message := "Cannot destructure property defaultOrientation of null" } ∧
    ("Cannot destructure property defaultOrientation of null" : String) ≠
      optionsErrorMessage :=
  ⟨rfl, rfl, by decide⟩

end UseWindowOrientation
